import Mathlib

/-!
Shallow embedding of the ephemeral git repository registry of
`pkg/gitservice/gitservice.go` (package `gitservice` of vulcan-local).

The pure helpers model the Go standard library collaborators used by the
source (`strings.Split`, `strings.TrimSuffix`, `path/filepath.Join`,
`path/filepath.Clean`, `path/filepath.Base`).  The effectful collaborators
(`os.MkdirTemp`, the `git ls-files` subprocess, `copy.Copy`,
`git.PlainInit`, `Worktree`, `Commit`, `gittp.NewGitServer`,
`freeport.GetFreePort`, `ListenAndServe`) are modelled by environments
that fix each call outcome, and the registry (`gitService`) is modelled
as a state machine whose `addGit` step is atomic, mirroring the mutex
that serializes `AddGit` in the source.
-/

namespace GitSvc

/-- Model of Go `strings.Split` with a one-character separator, acting on
the character list: the list of maximal runs between separators, keeping
empty runs, as Go does. -/
def splitChars (sep : Char) : List Char → List (List Char)
  | [] => [[]]
  | c :: cs =>
    if c = sep then [] :: splitChars sep cs
    else
      match splitChars sep cs with
      | [] => [[c]]
      | h :: t => (c :: h) :: t

/-- Go `strings.Split s (String.singleton sep)` on strings. -/
def goSplit (s : String) (sep : Char) : List String :=
  (splitChars sep s.data).map (fun l => String.mk l)

/-- Go `strings.Join` with a separator, used to rebuild paths from
components. -/
def joinSep (sep : String) : List String → String
  | [] => ""
  | [a] => a
  | a :: b :: rest => a ++ sep ++ joinSep sep (b :: rest)

/-- Whether a path begins with the separator, as Go checks on the first byte. -/
def isRooted (p : String) : Bool :=
  match p.data with
  | [] => false
  | c :: _ => c == '/'

/-- One step of the lexical cleanup of Go `path/filepath.Clean`: empty and
dot components vanish, dot-dot pops a real component (or is kept when not
rooted and nothing can be popped), everything else is pushed. -/
def cleanStep (rooted : Bool) (stack : List String) (c : String) : List String :=
  if c = "" ∨ c = "." then stack
  else if c = ".." then
    match stack with
    | [] => if rooted then [] else [".."]
    | top :: rest => if top = ".." then c :: top :: rest else rest
  else c :: stack

/-- Model of Go `path/filepath.Clean` (slash separator): split into
components, process them with `cleanStep`, rebuild. -/
def cleanPath (p : String) : String :=
  if p = "" then "."
  else
    let rooted := isRooted p
    let stack := (goSplit p '/').foldl (cleanStep rooted) []
    let body := joinSep "/" stack.reverse
    if rooted then (if body = "" then "/" else "/" ++ body)
    else (if body = "" then "." else body)

/-- Model of Go `path/filepath.Join` on two elements: empty elements are
dropped, the rest are joined with the separator and cleaned; all-empty
input gives the empty string. -/
def filepathJoin (a b : String) : String :=
  match [a, b].filter (fun e => e ≠ "") with
  | [] => ""
  | elems => cleanPath (joinSep "/" elems)

/-- Model of Go `path/filepath.Base`: empty input gives a dot, an
all-separator path gives the separator, otherwise the last non-empty
component. -/
def filepathBase (p : String) : String :=
  if p = "" then "."
  else
    match ((goSplit p '/').filter (fun c => c ≠ "")).getLast? with
    | some c => c
    | none => "/"

/-- Model of Go `strings.TrimSuffix`. -/
def trimSuffix (s suf : String) : String :=
  if suf.data.isSuffixOf s.data then
    String.mk (s.data.take (s.data.length - suf.data.length))
  else s

/-- The exclusion set computed in `createTmpRepository` from the stdout of
`git -C path ls-files --exclude-standard -oi --directory`: when the output
is non-empty, split it on newlines, trim a trailing slash from each line
and join each line onto the source path. -/
def ignoreList (path lsOut : String) : List String :=
  if 0 < lsOut.length then
    (goSplit lsOut '\n').map (fun f => filepathJoin path (trimSuffix f "/"))
  else []

/-- The skip predicate passed to `copy.Copy` in `createTmpRepository`:
skip when the source path is in the ignore set or its base name is the
git metadata directory. -/
def skipEntry (ignore : List String) (src : String) : Bool :=
  ignore.contains src || filepathBase src == ".git"

/-- The non-empty component-wise ancestors of a relative path, used to
model the recursive copy: an entry is visited only when none of its
ancestors (itself included) was skipped. -/
def relAncestors (rel : String) : List String :=
  let cs := goSplit rel '/'
  (List.range cs.length).map (fun i => joinSep "/" (cs.take (i + 1)))

/-- Model of the recursive copy collaborator applied to a source tree
given as relative entry paths: an entry reaches the snapshot exactly when
neither it nor any ancestor is skipped by the predicate (the predicate is
applied to source-absolute paths, as in the source). -/
def copyFiltered (path : String) (ignore : List String) (entries : List String) : List String :=
  entries.filter (fun rel =>
    (relAncestors rel).all (fun a => !(skipEntry ignore (filepathJoin path a))))

/-- A snapshot repository: its temporary directory and the tracked file
lists of its commits. -/
structure Snapshot where
  tmpDir : String
  commits : List (List String)
deriving Repr, DecidableEq

/-- Result of a modelled call: a value, a returned Go error, or a runtime
fault (nil dereference). -/
inductive Outcome (α : Type) where
  | ok (val : α)
  | err (msg : String)
  | crash
deriving Repr, DecidableEq

/-- Outcomes of the effectful collaborators invoked by one
`createTmpRepository` call. -/
structure BuildEnv where
  mkdirTemp : Except String String
  lsFiles : Except String String
  copyErr : Option String
  plainInit : Except String Unit
  worktree : Except String Unit
  commit : Except String Unit

/-- Result of a `createTmpRepository` call together with the temporary
directories existing on the filesystem afterwards. -/
structure BuildResult where
  outcome : Outcome Snapshot
  fsDirs : List String
deriving Repr, DecidableEq

/-- Model of `gitService.createTmpRepository`: make a temporary directory,
compute the exclusion set (degrading to empty when the listing command
fails), copy the tree with the skip predicate, init, open the worktree,
stage and commit once.  The init error is discarded as in the source
(`r, _ := git.PlainInit`), so a failed init leads to a nil dereference at
the worktree step; every other failure is returned.  No failure path
removes the already-created temporary directory. -/
def createTmpRepository (env : BuildEnv) (path : String) (entries : List String)
    (fs : List String) : BuildResult :=
  match env.mkdirTemp with
  | .error e => { outcome := .err e, fsDirs := fs }
  | .ok tmpDir =>
    let fs1 := tmpDir :: fs
    let ignore :=
      match env.lsFiles with
      | .error _ => []
      | .ok out => ignoreList path out
    match env.copyErr with
    | some e => { outcome := .err e, fsDirs := fs1 }
    | none =>
      let files := copyFiltered path ignore entries
      match env.plainInit.toOption with
      | none => { outcome := .crash, fsDirs := fs1 }
      | some _ =>
        match env.worktree with
        | .error e => { outcome := .err e, fsDirs := fs1 }
        | .ok _ =>
          match env.commit with
          | .error e => { outcome := .err e, fsDirs := fs1 }
          | .ok _ => { outcome := .ok { tmpDir := tmpDir, commits := [files] }, fsDirs := fs1 }

/-- The `gitMapping` record of the source: the allocated port and the
snapshot directory bound to a source path. -/
structure GitMapping where
  port : Nat
  tmpDir : String
deriving Repr, DecidableEq

/-- State of the `gitService` registry: the path-to-mapping table, the
identifiers of the serving goroutines still running, the wait-group
counter, the temporary directories existing on disk, the servers already
asked to stop, and whether the shutdown loop ran. -/
structure GSState where
  mappings : List (String × GitMapping)
  tasks : List Nat
  nextId : Nat
  wgCount : Nat
  fsDirs : List String
  stopped : List Nat
  shutdownStarted : Bool
deriving Repr, DecidableEq

/-- The registry state produced by `New`. -/
def initialState : GSState :=
  { mappings := [], tasks := [], nextId := 0, wgCount := 0, fsDirs := [],
    stopped := [], shutdownStarted := false }

/-- Outcomes of the collaborators invoked by one `AddGit` call beyond the
snapshot build: server construction, port allocation, and the eventual
result of the asynchronous `ListenAndServe` (a bind or serve failure). -/
structure AddGitEnv where
  build : BuildEnv
  newGitServer : Except String Unit
  getFreePort : Except String Nat
  listenErr : Option String

/-- Model of `gitService.AddGit`, atomic under the registry mutex: return
the recorded port on a hit; otherwise build the snapshot, construct the
server, allocate a port, record the mapping, increment the wait group and
spawn the serving task.  The `ListenAndServe` result of the spawned task
(`env.listenErr`), bind failures included, never influences the returned
value. -/
def addGit (s : GSState) (path : String) (entries : List String) (env : AddGitEnv) :
    Outcome Nat × GSState :=
  match s.mappings.lookup path with
  | some m => (.ok m.port, s)
  | none =>
    let br := createTmpRepository env.build path entries s.fsDirs
    let s1 : GSState := { s with fsDirs := br.fsDirs }
    match br.outcome with
    | .err e => (.err e, s1)
    | .crash => (.crash, s1)
    | .ok snap =>
      match env.newGitServer with
      | .error e => (.err e, s1)
      | .ok _ =>
        match env.getFreePort with
        | .error e => (.err e, s1)
        | .ok port =>
          (.ok port,
            { s1 with
              mappings := (path, { port := port, tmpDir := snap.tmpDir }) :: s1.mappings,
              wgCount := s1.wgCount + 1,
              tasks := s1.nextId :: s1.tasks,
              nextId := s1.nextId + 1 })

/-- The two primitive effects of the shutdown loop body. -/
inductive SDAction where
  | stopServer (port : Nat)
  | removeDir (dir : String)
deriving Repr, DecidableEq

/-- The effect sequence of `gitService.Shutdown`: for each mapping, first
`server.Shutdown`, then `os.RemoveAll` of its snapshot directory. -/
def shutdownActions (ms : List (String × GitMapping)) : List SDAction :=
  ms.flatMap (fun pm => [SDAction.stopServer pm.2.port, SDAction.removeDir pm.2.tmpDir])

/-- Interpretation of one shutdown action on the state. -/
def applySDAction (s : GSState) (a : SDAction) : GSState :=
  match a with
  | .stopServer p => { s with stopped := p :: s.stopped }
  | .removeDir d => { s with fsDirs := s.fsDirs.filter (fun x => x ≠ d) }

/-- The synchronous loop of `gitService.Shutdown` (everything before
`wg.Wait`). -/
def shutdownLoop (s : GSState) : GSState :=
  (shutdownActions s.mappings).foldl applySDAction { s with shutdownStarted := true }

/-- The observable events of the registry: an `AddGit` call (atomic under
the mutex), the exit of a serving goroutine (which runs `wg.Done`), the
shutdown loop, and the return of `wg.Wait` which ends `Shutdown`. -/
inductive Event where
  | addGitCall (path : String) (entries : List String) (env : AddGitEnv)
  | taskExit (id : Nat)
  | shutdownBegin
  | shutdownEnd

/-- Small-step transition of the registry; `none` when the event is not
enabled (`wg.Wait` returns only once the counter is zero). -/
def stepFn (s : GSState) : Event → Option GSState
  | .addGitCall p entries env => some (addGit s p entries env).2
  | .taskExit id =>
    if id ∈ s.tasks then
      some { s with tasks := s.tasks.erase id, wgCount := s.wgCount - 1 }
    else none
  | .shutdownBegin => some (shutdownLoop s)
  | .shutdownEnd => if s.shutdownStarted = true ∧ s.wgCount = 0 then some s else none

/-- States reachable from the fresh registry. -/
inductive Reachable : GSState → Prop
  | init : Reachable initialState
  | next (s : GSState) (e : Event) (s' : GSState) :
      Reachable s → stepFn s e = some s' → Reachable s'

/-- Structural invariant of reachable registry states: the wait-group
counter counts the running serving tasks, mapping keys are distinct, task
ids are distinct and below the id counter. -/
def StateInv (s : GSState) : Prop :=
  s.wgCount = s.tasks.length ∧ (s.mappings.map Prod.fst).Nodup ∧ s.tasks.Nodup ∧
    ∀ id ∈ s.tasks, id < s.nextId

/-- Collaborator outcomes of a fully successful snapshot build whose
ignore listing reports one ignored file. -/
def envExclusion : BuildEnv :=
  { mkdirTemp := .ok "/tmp/snap1", lsFiles := .ok "ignored.log\n", copyErr := none,
    plainInit := .ok (), worktree := .ok (), commit := .ok () }

/-- Collaborator outcomes where the git init fails; the source discards
this error. -/
def envInitFail : BuildEnv :=
  { mkdirTemp := .ok "/tmp/snap2", lsFiles := .error "not a git repository", copyErr := none,
    plainInit := .error "init failed", worktree := .ok (), commit := .ok () }

/-- Collaborator outcomes where the recursive copy fails after the
temporary directory was created. -/
def envCopyFail : BuildEnv :=
  { mkdirTemp := .ok "/tmp/snap3", lsFiles := .error "not a git repository",
    copyErr := some "copy failed", plainInit := .ok (), worktree := .ok (), commit := .ok () }

/-- Collaborator outcomes of a successful build of an empty source tree
that is not itself under version control. -/
def envEmptyDir : BuildEnv :=
  { mkdirTemp := .ok "/tmp/snap4", lsFiles := .error "not a git repository", copyErr := none,
    plainInit := .ok (), worktree := .ok (), commit := .ok () }

/-- Collaborator outcomes where the temporary directory creation itself
fails. -/
def envMkdirFail : BuildEnv :=
  { mkdirTemp := .error "no temp space", lsFiles := .error "not a git repository",
    copyErr := none, plainInit := .ok (), worktree := .ok (), commit := .ok () }

/-- Collaborator outcomes where everything succeeds except the final
commit. -/
def envCommitFail : BuildEnv :=
  { mkdirTemp := .ok "/tmp/snap5", lsFiles := .error "not a git repository", copyErr := none,
    plainInit := .ok (), worktree := .ok (), commit := .error "commit failed" }

/-- A fully successful `AddGit` collaborator environment. -/
def envAddOk : AddGitEnv :=
  { build := envExclusion, newGitServer := .ok (), getFreePort := .ok 4000, listenErr := none }

/-- A second successful environment offering a different free port, used
for the second call of the idempotence witness. -/
def envAddOk2 : AddGitEnv :=
  { build := envExclusion, newGitServer := .ok (), getFreePort := .ok 5000, listenErr := none }

/-- An `AddGit` environment whose snapshot build fails at the copy step. -/
def envAddCopyFail : AddGitEnv :=
  { build := envCopyFail, newGitServer := .ok (), getFreePort := .ok 4000, listenErr := none }

/-- An `AddGit` environment where every synchronous step succeeds but the
asynchronous listen of the spawned task fails to bind its port. -/
def envAddBindFail : AddGitEnv :=
  { build := envExclusion, newGitServer := .ok (), getFreePort := .ok 4000,
    listenErr := some "bind: address already in use" }

/-- An `AddGit` environment where the protocol server construction
fails. -/
def envAddServerFail : AddGitEnv :=
  { build := envExclusion, newGitServer := .error "server construction failed",
    getFreePort := .ok 4000, listenErr := none }

/-- A registry state holding one mapping with one running serving task. -/
def sOneMapping : GSState :=
  { mappings := [("/src", { port := 4000, tmpDir := "/tmp/snap1" })], tasks := [0], nextId := 1,
    wgCount := 1, fsDirs := ["/tmp/snap1"], stopped := [], shutdownStarted := false }

/-- Splitting never yields an empty list of runs. -/
theorem splitChars_ne_nil (sep : Char) (l : List Char) : splitChars sep l ≠ [] := by
  induction l with
  | nil => simp [splitChars]
  | cons c cs ih =>
    simp only [splitChars]
    by_cases h : c = sep
    · simp [h]
    · simp only [h, if_false]
      cases hs : splitChars sep cs with
      | nil => simp
      | cons a t => simp

/-- Appending a separator appends one empty run to the split. -/
theorem splitChars_append_sep (sep : Char) (l : List Char) :
    splitChars sep (l ++ [sep]) = splitChars sep l ++ [[]] := by
  induction l with
  | nil => simp [splitChars]
  | cons c cs ih =>
    by_cases h : c = sep
    · simp [splitChars, h, ih]
    · cases hs : splitChars sep cs with
      | nil => exact absurd hs (splitChars_ne_nil sep cs)
      | cons a t =>
        simp only [List.cons_append, splitChars, h, if_false, ih, hs]
        simp only [List.append_eq]
        rw [ih, hs]
        rfl

/-- String append acts as list append on the character data. -/
theorem data_append (s t : String) : (s ++ t).data = s.data ++ t.data := rfl

/-- A newline-terminated string splits into the split of its body plus a
trailing empty line, as Go `strings.Split` does. -/
theorem goSplit_append_nl (body : String) :
    goSplit (body ++ "\n") '\n' = goSplit body '\n' ++ [""] := by
  unfold goSplit
  rw [data_append]
  show (splitChars '\n' (body.data ++ ['\n'])).map _ = _
  rw [splitChars_append_sep]
  simp

/-- Joining a non-empty path with the empty element cleans the path, as
Go `filepath.Join` ignores empty elements and cleans the result. -/
theorem filepathJoin_empty_right (p : String) (hp : p ≠ "") :
    filepathJoin p "" = cleanPath p := by
  unfold filepathJoin
  have hf : [p, ""].filter (fun e => e ≠ "") = [p] := by simp [hp]
  rw [hf]
  rfl

/-- A failed lookup means the key is absent from the key list. -/
theorem lookup_none_not_mem_keys (l : List (String × GitMapping)) (k : String)
    (h : l.lookup k = none) : k ∉ l.map Prod.fst := by
  induction l with
  | nil => simp
  | cons hd tl ih =>
    obtain ⟨k', v⟩ := hd
    by_cases hk : k = k'
    · simp [List.lookup, hk] at h
    · simp only [List.lookup, show (k == k') = false by simp [hk]] at h
      simp [hk, ih h]

/-- A successful lookup means the key occurs in the key list. -/
theorem lookup_some_mem_keys (l : List (String × GitMapping)) (k : String) (m : GitMapping)
    (h : l.lookup k = some m) : k ∈ l.map Prod.fst := by
  induction l with
  | nil => simp [List.lookup] at h
  | cons hd tl ih =>
    obtain ⟨k', v⟩ := hd
    by_cases hk : k = k'
    · simp [hk]
    · simp only [List.lookup, show (k == k') = false by simp [hk]] at h
      simp [ih h]

/-- The shutdown loop only touches the stop list and the filesystem: the
mapping table, the task list, the wait-group counter and the id counter
are untouched by any shutdown action. -/
theorem foldl_applySDAction_fields (as : List SDAction) (s : GSState) :
    (as.foldl applySDAction s).mappings = s.mappings ∧
    (as.foldl applySDAction s).tasks = s.tasks ∧
    (as.foldl applySDAction s).wgCount = s.wgCount ∧
    (as.foldl applySDAction s).nextId = s.nextId ∧
    (as.foldl applySDAction s).shutdownStarted = s.shutdownStarted := by
  induction as generalizing s with
  | nil => simp
  | cons a as ih =>
    have h := ih (applySDAction s a)
    cases a <;> simpa [applySDAction] using h

/-- Shutdown actions never create directories. -/
theorem applySDAction_not_mem (s : GSState) (a : SDAction) (d : String)
    (h : d ∉ s.fsDirs) : d ∉ (applySDAction s a).fsDirs := by
  cases a with
  | stopServer q => simpa [applySDAction] using h
  | removeDir d' =>
    intro hmem
    exact h (List.mem_of_mem_filter hmem)

/-- Removing a directory takes it off the filesystem. -/
theorem applySDAction_removeDir_not_mem (s : GSState) (d : String) :
    d ∉ (applySDAction s (SDAction.removeDir d)).fsDirs := by
  intro hmem
  have := List.of_mem_filter hmem
  simp at this

/-- Once absent, a directory stays absent for the rest of the loop. -/
theorem foldl_applySDAction_not_mem (as : List SDAction) (s : GSState) (d : String)
    (h : d ∉ s.fsDirs) : d ∉ (as.foldl applySDAction s).fsDirs := by
  induction as generalizing s with
  | nil => simpa
  | cons a as ih => exact ih (applySDAction s a) (applySDAction_not_mem s a d h)

/-- A directory whose removal action occurs in the loop is absent from
the filesystem after the loop. -/
theorem foldl_removes_dir (as : List SDAction) (d : String) :
    SDAction.removeDir d ∈ as → ∀ s : GSState, d ∉ (as.foldl applySDAction s).fsDirs := by
  induction as with
  | nil => intro h; cases h
  | cons a as ih =>
    intro h s
    rcases List.mem_cons.mp h with heq | hmem
    · subst heq
      exact foldl_applySDAction_not_mem as _ d (applySDAction_removeDir_not_mem s d)
    · exact ih hmem (applySDAction s a)

/-- Every mapping contributes its removal action to the shutdown action
sequence. -/
theorem removeDir_mem_shutdownActions (ms : List (String × GitMapping)) (p : String)
    (m : GitMapping) (hm : (p, m) ∈ ms) :
    SDAction.removeDir m.tmpDir ∈ shutdownActions ms := by
  simp only [shutdownActions, List.mem_flatMap]
  exact ⟨(p, m), hm, by simp⟩

/-- The shutdown action sequence removes each directory as often as it
occurs among the mapped snapshot directories. -/
theorem count_removeDir_shutdownActions (ms : List (String × GitMapping)) (d : String) :
    (shutdownActions ms).count (SDAction.removeDir d) =
      (ms.map (fun pm => pm.2.tmpDir)).count d := by
  induction ms with
  | nil => rfl
  | cons hd tl ih =>
    simp only [shutdownActions, List.flatMap_cons, List.map_cons] at *
    rw [List.count_append, ih]
    by_cases hdd : hd.2.tmpDir = d
    · simp [List.count_cons, hdd, Nat.add_comm]
    · simp [List.count_cons, hdd, Ne.symm hdd]

/-- For every mapping, the stop action of its server immediately precedes
the removal action of its snapshot directory in the shutdown action
sequence. -/
theorem stop_precedes_remove (ms : List (String × GitMapping)) (p : String) (m : GitMapping)
    (hm : (p, m) ∈ ms) :
    ∃ i, (shutdownActions ms)[i]? = some (SDAction.stopServer m.port) ∧
      (shutdownActions ms)[i + 1]? = some (SDAction.removeDir m.tmpDir) := by
  induction ms with
  | nil => cases hm
  | cons hd tl ih =>
    rcases List.mem_cons.mp hm with heq | hmem
    · refine ⟨0, ?_, ?_⟩ <;> simp [shutdownActions, ← heq]
    · obtain ⟨i, h1, h2⟩ := ih hmem
      have hact : shutdownActions (hd :: tl) =
          SDAction.stopServer hd.2.port :: SDAction.removeDir hd.2.tmpDir ::
            shutdownActions tl := by
        simp [shutdownActions]
      refine ⟨i + 1 + 1, ?_, ?_⟩
      · rw [hact, List.getElem?_cons_succ, List.getElem?_cons_succ]
        exact h1
      · rw [hact, List.getElem?_cons_succ, List.getElem?_cons_succ]
        exact h2

/-- An `AddGit` call preserves the structural invariant. -/
theorem addGit_inv (s : GSState) (p : String) (entries : List String) (env : AddGitEnv)
    (h : StateInv s) : StateInv (addGit s p entries env).2 := by
  obtain ⟨h1, h2, h3, h4⟩ := h
  cases hl : s.mappings.lookup p with
  | some m => simpa [addGit, hl, StateInv] using ⟨h1, h2, h3, h4⟩
  | none =>
    cases hbr : (createTmpRepository env.build p entries s.fsDirs).outcome with
    | err e => simpa [addGit, hl, hbr, StateInv] using ⟨h1, h2, h3, h4⟩
    | crash => simpa [addGit, hl, hbr, StateInv] using ⟨h1, h2, h3, h4⟩
    | ok snap =>
      cases hng : env.newGitServer with
      | error e => simpa [addGit, hl, hbr, hng, StateInv] using ⟨h1, h2, h3, h4⟩
      | ok u =>
        cases hfp : env.getFreePort with
        | error e => simpa [addGit, hl, hbr, hng, hfp, StateInv] using ⟨h1, h2, h3, h4⟩
        | ok port =>
          simp only [addGit, hl, hbr, hng, hfp, StateInv]
          refine ⟨by simpa using h1, ?_, ?_, ?_⟩
          · rw [List.map_cons]
            exact List.nodup_cons.mpr ⟨lookup_none_not_mem_keys s.mappings p hl, h2⟩
          · exact List.nodup_cons.mpr ⟨fun hc => absurd (h4 _ hc) (lt_irrefl _), h3⟩
          · intro id hid
            rcases List.mem_cons.mp hid with rfl | hid'
            · exact Nat.lt_succ_self _
            · exact Nat.lt_succ_of_lt (h4 _ hid')

/-- Every reachable registry state satisfies the structural invariant. -/
theorem reachable_inv (s : GSState) (hs : Reachable s) : StateInv s := by
  induction hs with
  | init => refine ⟨rfl, ?_, ?_, ?_⟩ <;> simp [initialState]
  | next s e s' _ hstep ih =>
    obtain ⟨h1, h2, h3, h4⟩ := ih
    cases e with
    | addGitCall p entries env =>
      have := addGit_inv s p entries env ⟨h1, h2, h3, h4⟩
      simp only [stepFn, Option.some.injEq] at hstep
      rwa [← hstep]
    | taskExit id =>
      simp only [stepFn] at hstep
      by_cases hmem : id ∈ s.tasks
      · rw [if_pos hmem] at hstep
        cases hstep
        simp only [StateInv]
        refine ⟨?_, h2, h3.erase id, ?_⟩
        · simp [h1, List.length_erase_of_mem hmem]
        · intro j hj
          exact h4 j (List.mem_of_mem_erase hj)
      · rw [if_neg hmem] at hstep
        cases hstep
    | shutdownBegin =>
      simp only [stepFn, Option.some.injEq] at hstep
      subst hstep
      obtain ⟨e1, e2, e3, e4, _⟩ :=
        foldl_applySDAction_fields (shutdownActions s.mappings)
          { s with shutdownStarted := true }
      simp only [StateInv]
      unfold shutdownLoop
      refine ⟨?_, ?_, ?_, ?_⟩
      · rw [e3, e2]; exact h1
      · rw [e1]; exact h2
      · rw [e2]; exact h3
      · intro j hj
        rw [e2] at hj
        rw [e4]
        exact h4 j hj
    | shutdownEnd =>
      simp only [stepFn] at hstep
      by_cases hc : s.shutdownStarted = true ∧ s.wgCount = 0
      · rw [if_pos hc] at hstep
        cases hstep
        exact ⟨h1, h2, h3, h4⟩
      · rw [if_neg hc] at hstep
        cases hstep

/-- C6: when the ignore listing succeeds with non-empty newline-terminated
output, the computed exclusion set contains the source path itself — the
trailing empty field of the newline split is joined back onto the source
root — so the copy skip predicate returns true at the source root path. -/
theorem exclusion_set_contains_source_root (path body : String) (hp : path ≠ "")
    (hc : cleanPath path = path) :
    path ∈ ignoreList path (body ++ "\n") ∧
      skipEntry (ignoreList path (body ++ "\n")) path = true := by
  have hmem : path ∈ ignoreList path (body ++ "\n") := by
    unfold ignoreList
    have hlen : 0 < (body ++ "\n").length := by
      show 0 < (body ++ "\n").data.length
      rw [data_append]
      simp
    rw [if_pos hlen, goSplit_append_nl]
    refine List.mem_map.mpr ⟨"", List.mem_append_right _ (List.mem_singleton.mpr rfl), ?_⟩
    show filepathJoin path (trimSuffix "" "/") = path
    have ht : trimSuffix "" "/" = "" := rfl
    rw [ht, filepathJoin_empty_right path hp, hc]
  refine ⟨hmem, ?_⟩
  unfold skipEntry
  simp
  exact Or.inl hmem

/-- Witness for the C6 theorem at a concrete root and a concrete
newline-terminated listing. -/
theorem exclusion_set_contains_source_root_witness :
    ("/src" ≠ "" ∧ cleanPath "/src" = "/src") ∧
      ("/src" ∈ ignoreList "/src" ("ignored.log" ++ "\n") ∧
        skipEntry (ignoreList "/src" ("ignored.log" ++ "\n")) "/src" = true) :=
  ⟨⟨by decide, by decide⟩,
    exclusion_set_contains_source_root "/src" "ignored.log" (by decide) (by decide)⟩

/-- C5: for a source tree containing `a.txt` and `ignored.log`, with the
ignore listing reporting `ignored.log` and all collaborators succeeding,
the single snapshot commit contains `a.txt` and not `ignored.log`; and
the skip predicate unconditionally skips any entry whose base name is the
git metadata directory, for every exclusion set. -/
theorem snapshot_commit_excludes_ignored (entries fs : List String)
    (ha : "a.txt" ∈ entries) (hi : "ignored.log" ∈ entries) :
    ∃ files,
      (createTmpRepository envExclusion "/src" entries fs).outcome =
        Outcome.ok { tmpDir := "/tmp/snap1", commits := [files] } ∧
      "a.txt" ∈ files ∧ "ignored.log" ∉ files ∧
      ∀ ig src, filepathBase src = ".git" → skipEntry ig src = true := by
  refine ⟨copyFiltered "/src" (ignoreList "/src" "ignored.log\n") entries, rfl, ?_, ?_, ?_⟩
  · exact List.mem_filter.mpr ⟨ha, by decide⟩
  · intro hmem
    exact absurd (List.mem_filter.mp hmem).2 (by decide)
  · intro ig src h
    simp [skipEntry, h]

/-- Witness for the C5 theorem at the two-file source tree of the claim. -/
theorem snapshot_commit_excludes_ignored_witness :
    ("a.txt" ∈ ["a.txt", "ignored.log"] ∧ "ignored.log" ∈ ["a.txt", "ignored.log"]) ∧
      ∃ files,
        (createTmpRepository envExclusion "/src" ["a.txt", "ignored.log"] []).outcome =
          Outcome.ok { tmpDir := "/tmp/snap1", commits := [files] } ∧
        "a.txt" ∈ files ∧ "ignored.log" ∉ files ∧
        ∀ ig src, filepathBase src = ".git" → skipEntry ig src = true :=
  ⟨⟨by decide, by decide⟩,
    snapshot_commit_excludes_ignored ["a.txt", "ignored.log"] [] (by decide) (by decide)⟩

/-- C9: an empty source tree with all collaborators succeeding builds a
snapshot repository with exactly one commit tracking zero files, whatever
the ignore listing reports. -/
theorem empty_source_builds_single_empty_commit (env : BuildEnv) (path d : String)
    (fs : List String) (hmk : env.mkdirTemp = .ok d) (hcp : env.copyErr = none)
    (hin : env.plainInit = .ok ()) (hwt : env.worktree = .ok ()) (hcm : env.commit = .ok ()) :
    (createTmpRepository env path [] fs).outcome =
      Outcome.ok { tmpDir := d, commits := [[]] } := by
  cases hls : env.lsFiles <;>
    simp [createTmpRepository, hmk, hls, hcp, hin, hwt, hcm, copyFiltered, Except.toOption]

/-- Witness for the C9 theorem: a concrete empty directory that is not
under version control builds one empty commit. -/
theorem empty_source_builds_single_empty_commit_witness :
    (createTmpRepository envEmptyDir "/empty" [] []).outcome =
      Outcome.ok { tmpDir := "/tmp/snap4", commits := [[]] } :=
  empty_source_builds_single_empty_commit envEmptyDir "/empty" "/tmp/snap4" [] rfl rfl rfl rfl
    rfl

/-- C4 counterexample: at this input the git init fails, and the build
outcome is a runtime fault — the discarded init error followed by a nil
worktree dereference — not a returned build error. -/
theorem init_failure_faults_instead_of_error :
    (createTmpRepository envInitFail "/src" ["a.txt"] []).outcome = Outcome.crash := rfl

/-- C4 amended: failures at temporary-directory creation, copy, worktree
access and commit are propagated to the caller as build errors, but a git
init failure is discarded and the build then faults instead of returning
an error. -/
theorem build_failure_propagation (env : BuildEnv) (path : String) (entries fs : List String) :
    (∀ e, env.mkdirTemp = .error e →
      (createTmpRepository env path entries fs).outcome = Outcome.err e) ∧
    (∀ d e, env.mkdirTemp = .ok d → env.copyErr = some e →
      (createTmpRepository env path entries fs).outcome = Outcome.err e) ∧
    (∀ d e, env.mkdirTemp = .ok d → env.copyErr = none → env.plainInit = .ok () →
      env.worktree = .error e →
      (createTmpRepository env path entries fs).outcome = Outcome.err e) ∧
    (∀ d e, env.mkdirTemp = .ok d → env.copyErr = none → env.plainInit = .ok () →
      env.worktree = .ok () → env.commit = .error e →
      (createTmpRepository env path entries fs).outcome = Outcome.err e) ∧
    (∀ d e, env.mkdirTemp = .ok d → env.copyErr = none → env.plainInit = .error e →
      (createTmpRepository env path entries fs).outcome = Outcome.crash) := by
  refine ⟨?_, ?_, ?_, ?_, ?_⟩
  · intro e h1
    simp [createTmpRepository, h1]
  · intro d e h1 h2
    simp [createTmpRepository, h1, h2]
  · intro d e h1 h2 h3 h4
    simp [createTmpRepository, h1, h2, h3, h4, Except.toOption]
  · intro d e h1 h2 h3 h4 h5
    simp [createTmpRepository, h1, h2, h3, h4, h5, Except.toOption]
  · intro d e h1 h2 h3
    simp [createTmpRepository, h1, h2, h3, Except.toOption]

/-- Witness for the C4 amended theorem at concrete failing collaborator
environments: a temp-directory failure and a commit failure are returned,
an init failure faults. -/
theorem build_failure_propagation_witness :
    (createTmpRepository envMkdirFail "/src" [] []).outcome = Outcome.err "no temp space" ∧
      (createTmpRepository envCommitFail "/src" [] []).outcome =
        Outcome.err "commit failed" ∧
      (createTmpRepository envInitFail "/src" [] []).outcome = Outcome.crash :=
  ⟨(build_failure_propagation envMkdirFail "/src" [] []).1 "no temp space" rfl,
    (build_failure_propagation envCommitFail "/src" [] []).2.2.2.1 "/tmp/snap5"
      "commit failed" rfl rfl rfl rfl rfl,
    (build_failure_propagation envInitFail "/src" [] []).2.2.2.2 "/tmp/snap2" "init failed"
      rfl rfl rfl⟩

/-- C10 counterexample: at this input the build fails after creating the
temporary directory, the directory is still on the filesystem afterwards,
and the error outcome carries no directory path, mirroring the empty
string the source returns with the error. -/
theorem failed_build_dir_retained_and_unreturned :
    (createTmpRepository envCopyFail "/src" ["a.txt"] []).outcome =
        Outcome.err "copy failed" ∧
      (createTmpRepository envCopyFail "/src" ["a.txt"] []).fsDirs = ["/tmp/snap3"] :=
  ⟨rfl, rfl⟩

/-- C10 amended: once the temporary directory was created it stays on the
filesystem after the call, in particular after every failing build, whose
error result carries no directory path. -/
theorem build_never_removes_tmpdir (env : BuildEnv) (path d : String)
    (entries fs : List String) (hmk : env.mkdirTemp = .ok d) :
    d ∈ (createTmpRepository env path entries fs).fsDirs := by
  obtain ⟨mk, ls, cp, pi, wt, cm⟩ := env
  obtain rfl : mk = .ok d := hmk
  cases ls <;> cases cp <;> cases pi <;> cases wt <;> cases cm <;>
    simp [createTmpRepository, Except.toOption]

/-- Witness for the C10 amended theorem at the concrete copy failure. -/
theorem build_never_removes_tmpdir_witness :
    "/tmp/snap3" ∈ (createTmpRepository envCopyFail "/src" ["a.txt"] []).fsDirs :=
  build_never_removes_tmpdir envCopyFail "/src" "/tmp/snap3" ["a.txt"] [] rfl

/-- C1: once an `AddGit` call for a path succeeds with some port, a
second call for the same path returns the same port and leaves the state
unchanged, whatever its collaborators would do, and exactly one mapping
for that path exists.  The mutex serializes the calls, so the sequential
model also covers concurrent callers. -/
theorem addGit_idempotent_one_mapping (s : GSState) (hs : Reachable s) (p : String)
    (entries entries' : List String) (env env' : AddGitEnv) (port : Nat) (s1 : GSState)
    (h : addGit s p entries env = (Outcome.ok port, s1)) :
    addGit s1 p entries' env' = (Outcome.ok port, s1) ∧
      (s1.mappings.map Prod.fst).count p = 1 := by
  cases hl : s.mappings.lookup p with
  | some m =>
    have h' := h
    simp only [addGit, hl, Prod.mk.injEq, Outcome.ok.injEq] at h'
    obtain ⟨hport, hstate⟩ := h'
    subst hport
    subst hstate
    constructor
    · simp [addGit, hl]
    · have hnd := (reachable_inv s hs).2.1
      exact List.count_eq_one_of_mem hnd (lookup_some_mem_keys s.mappings p m hl)
  | none =>
    cases hbr : (createTmpRepository env.build p entries s.fsDirs).outcome with
    | err e => simp [addGit, hl, hbr] at h
    | crash => simp [addGit, hl, hbr] at h
    | ok snap =>
      cases hng : env.newGitServer with
      | error e => simp [addGit, hl, hbr, hng] at h
      | ok u =>
        cases hfp : env.getFreePort with
        | error e => simp [addGit, hl, hbr, hng, hfp] at h
        | ok q =>
          have h' := h
          simp only [addGit, hl, hbr, hng, hfp, Prod.mk.injEq, Outcome.ok.injEq] at h'
          obtain ⟨hq, hstate⟩ := h'
          subst hq
          subst hstate
          constructor
          · simp [addGit, List.lookup]
          · simp only [List.map_cons, List.count_cons_self]
            rw [List.count_eq_zero.mpr (lookup_none_not_mem_keys s.mappings p hl)]

/-- Witness for the C1 theorem: a concrete successful registration
followed by a second call with different collaborators returns the same
port and keeps a single mapping. -/
theorem addGit_idempotent_one_mapping_witness :
    addGit (addGit initialState "/src" ["a.txt"] envAddOk).2 "/src" [] envAddOk2 =
        (Outcome.ok 4000, (addGit initialState "/src" ["a.txt"] envAddOk).2) ∧
      ((addGit initialState "/src" ["a.txt"] envAddOk).2.mappings.map Prod.fst).count
          "/src" = 1 :=
  addGit_idempotent_one_mapping initialState Reachable.init "/src" ["a.txt"] [] envAddOk
    envAddOk2 4000 (addGit initialState "/src" ["a.txt"] envAddOk).2 rfl

/-- C3 counterexample: at this input the asynchronous listen fails to bind
its port, yet the call returns the port with no error: the bind failure is
not the synchronous error result of the call. -/
theorem bind_failure_not_returned_synchronously :
    envAddBindFail.listenErr = some "bind: address already in use" ∧
      (addGit initialState "/src" ["a.txt"] envAddBindFail).1 = Outcome.ok 4000 :=
  ⟨rfl, rfl⟩

/-- C3 amended: on a cache miss with a successful build, server
construction errors and port allocation errors are returned synchronously,
while the outcome of the asynchronous listen — bind failures included —
never affects the returned value: with both synchronous steps succeeding,
the call returns the allocated port whatever `listenErr` is. -/
theorem addGit_returns_sync_failures_only (s : GSState) (p : String)
    (entries : List String) (env : AddGitEnv) (snap : Snapshot)
    (hl : s.mappings.lookup p = none)
    (hb : (createTmpRepository env.build p entries s.fsDirs).outcome = Outcome.ok snap) :
    (∀ e, env.newGitServer = .error e →
      (addGit s p entries env).1 = Outcome.err e) ∧
    (∀ e, env.newGitServer = .ok () → env.getFreePort = .error e →
      (addGit s p entries env).1 = Outcome.err e) ∧
    (∀ port, env.newGitServer = .ok () → env.getFreePort = .ok port →
      (addGit s p entries env).1 = Outcome.ok port) := by
  refine ⟨?_, ?_, ?_⟩
  · intro e hng
    simp [addGit, hl, hb, hng]
  · intro e hng hfp
    simp [addGit, hl, hb, hng, hfp]
  · intro port hng hfp
    simp [addGit, hl, hb, hng, hfp]

/-- Witness for the C3 amended theorem: a concrete server construction
failure is returned, and a concrete bind failure still yields the port. -/
theorem addGit_returns_sync_failures_only_witness :
    (addGit initialState "/src" ["a.txt"] envAddServerFail).1 =
        Outcome.err "server construction failed" ∧
      (addGit initialState "/src" ["a.txt"] envAddBindFail).1 = Outcome.ok 4000 :=
  ⟨(addGit_returns_sync_failures_only initialState "/src" ["a.txt"] envAddServerFail
      { tmpDir := "/tmp/snap1", commits := [["a.txt"]] } rfl rfl).1
      "server construction failed" rfl,
    (addGit_returns_sync_failures_only initialState "/src" ["a.txt"] envAddBindFail
      { tmpDir := "/tmp/snap1", commits := [["a.txt"]] } rfl rfl).2.2 4000 rfl rfl⟩

/-- C7: an `AddGit` call that returns an error records no mapping: the
mapping table is unchanged and the requested path stays unregistered, so
a later retry runs the build-and-start sequence again. -/
theorem addGit_error_records_no_mapping (s : GSState) (p : String) (entries : List String)
    (env : AddGitEnv) (e : String) (s1 : GSState)
    (h : addGit s p entries env = (Outcome.err e, s1)) :
    s1.mappings = s.mappings ∧ s1.mappings.lookup p = none := by
  cases hl : s.mappings.lookup p with
  | some m => simp [addGit, hl] at h
  | none =>
    cases hbr : (createTmpRepository env.build p entries s.fsDirs).outcome with
    | err e' =>
      simp only [addGit, hl, hbr, Prod.mk.injEq, Outcome.err.injEq] at h
      obtain ⟨-, h2⟩ := h
      exact ⟨by rw [← h2], by rw [← h2]; exact hl⟩
    | crash => simp [addGit, hl, hbr] at h
    | ok snap =>
      cases hng : env.newGitServer with
      | error e' =>
        simp only [addGit, hl, hbr, hng, Prod.mk.injEq, Outcome.err.injEq] at h
        obtain ⟨-, h2⟩ := h
        exact ⟨by rw [← h2], by rw [← h2]; exact hl⟩
      | ok u =>
        cases hfp : env.getFreePort with
        | error e' =>
          simp only [addGit, hl, hbr, hng, hfp, Prod.mk.injEq, Outcome.err.injEq] at h
          obtain ⟨-, h2⟩ := h
          exact ⟨by rw [← h2], by rw [← h2]; exact hl⟩
        | ok q => simp [addGit, hl, hbr, hng, hfp] at h

/-- Witness for the C7 theorem at the concrete copy failure. -/
theorem addGit_error_records_no_mapping_witness :
    (addGit initialState "/src" ["a.txt"] envAddCopyFail).2.mappings =
        initialState.mappings ∧
      (addGit initialState "/src" ["a.txt"] envAddCopyFail).2.mappings.lookup "/src" =
        none :=
  addGit_error_records_no_mapping initialState "/src" ["a.txt"] envAddCopyFail "copy failed"
    (addGit initialState "/src" ["a.txt"] envAddCopyFail).2 rfl

/-- C2 counterexample: a snapshot directory created during an `AddGit`
call that then fails at the copy step is never recorded in a mapping, and
it is still on the filesystem after the shutdown loop ran. -/
theorem failed_request_dir_survives_shutdown :
    (addGit initialState "/src" ["a.txt"] envAddCopyFail).1 = Outcome.err "copy failed" ∧
      (shutdownLoop (addGit initialState "/src" ["a.txt"] envAddCopyFail).2).fsDirs =
        ["/tmp/snap3"] :=
  ⟨rfl, rfl⟩

/-- C2 amended: every snapshot directory recorded in a mapping is removed
by the shutdown loop, its removal action occurs exactly once in the
shutdown action sequence, and the stop action of its bound server precedes
its removal; directories created by requests that failed are not recorded
and are not removed. -/
theorem shutdown_removes_mapped_dirs (s : GSState)
    (hnd : (s.mappings.map (fun pm => pm.2.tmpDir)).Nodup) (p : String) (m : GitMapping)
    (hm : (p, m) ∈ s.mappings) :
    m.tmpDir ∉ (shutdownLoop s).fsDirs ∧
      (shutdownActions s.mappings).count (SDAction.removeDir m.tmpDir) = 1 ∧
      ∃ i, (shutdownActions s.mappings)[i]? = some (SDAction.stopServer m.port) ∧
        (shutdownActions s.mappings)[i + 1]? = some (SDAction.removeDir m.tmpDir) := by
  refine ⟨?_, ?_, stop_precedes_remove s.mappings p m hm⟩
  · exact foldl_removes_dir _ _ (removeDir_mem_shutdownActions s.mappings p m hm) _
  · rw [count_removeDir_shutdownActions]
    exact List.count_eq_one_of_mem hnd (List.mem_map.mpr ⟨(p, m), hm, rfl⟩)

/-- Witness for the C2 amended theorem at a concrete one-mapping state. -/
theorem shutdown_removes_mapped_dirs_witness :
    "/tmp/snap1" ∉ (shutdownLoop sOneMapping).fsDirs ∧
      (shutdownActions sOneMapping.mappings).count (SDAction.removeDir "/tmp/snap1") = 1 ∧
      ∃ i, (shutdownActions sOneMapping.mappings)[i]? =
          some (SDAction.stopServer 4000) ∧
        (shutdownActions sOneMapping.mappings)[i + 1]? =
          some (SDAction.removeDir "/tmp/snap1") :=
  shutdown_removes_mapped_dirs sOneMapping (by decide) "/src"
    { port := 4000, tmpDir := "/tmp/snap1" } (by decide)

/-- C8: the return of `Shutdown` — the `wg.Wait` step — is enabled only in
reachable states where no serving task is still running: no serving task
outlives the shutdown call. -/
theorem shutdown_return_requires_tasks_done (s s' : GSState) (hs : Reachable s)
    (h : stepFn s Event.shutdownEnd = some s') : s.tasks = [] := by
  have hinv := reachable_inv s hs
  simp only [stepFn] at h
  by_cases hc : s.shutdownStarted = true ∧ s.wgCount = 0
  · have hlen : s.tasks.length = 0 := by
      rw [← hinv.1]
      exact hc.2
    exact List.length_eq_zero.mp hlen
  · rw [if_neg hc] at h
    cases h

/-- Witness for the C8 theorem on the concrete trace that runs the
shutdown loop on the fresh registry and then returns from the wait. -/
theorem shutdown_return_requires_tasks_done_witness :
    (shutdownLoop initialState).tasks = [] :=
  shutdown_return_requires_tasks_done (shutdownLoop initialState)
    (shutdownLoop initialState)
    (Reachable.next initialState Event.shutdownBegin (shutdownLoop initialState)
      Reachable.init rfl)
    rfl

end GitSvc
